import Mathlib

/-!
Verification development for the thermal-load / ventilation calculation in
`Inifltration.py` (function `calculate_thermal_load`).

The Python computation is shallowly embedded over exact rationals (`ℚ`).
The psychrometric library functions `psy.w` and `psy.v` are external
collaborators (not part of this repository), so they appear as abstract
function parameters `wfun`, `vfun`; every claim quantifies over them or over
the values `wo` (outdoor absolute humidity) and `sv` (specific volume) they
return.  The spreadsheet read (`pd.read_excel` + `.at[4, 'I']`) is modelled
as a lookup in an explicit table.  Python's division — which raises
`ZeroDivisionError` on a zero divisor — is modelled by the guarded division
`pdiv`, and print statements are modelled as an emitted list of output
events in source order.
-/

namespace EVA

/-- Specific heat c = 1000 J/(kg K), source line 31. -/
def c : ℚ := 1000

/-- Latent heat lat = 2496e3 J/kg, source line 32. -/
def lat : ℚ := 2496e3

/-- Indoor temperature θi = 23 °C, source line 33. -/
def θi : ℚ := 23

/-- Temperature after the thermal zone, θs = θi + 15, source line 34. -/
def θs : ℚ := θi + 15

/-- Room volume V = 3·3·8 m³, source line 35. -/
def V : ℚ := 3 * 3 * 8

/-- Wall convection coefficient Uw = 0.7 W/(m² K), source line 37. -/
def Uw : ℚ := 0.7

/-- Wall surface Sw = 3·8 m², source line 38. -/
def Sw : ℚ := 3 * 8

/-- Outdoor temperature θo = −7.3 °C, source line 39. -/
def θo : ℚ := -7.3

/-- Number of persons p = 1, source line 47. -/
def p : ℚ := 1

/-- Volumetric flow per person Vp = 36 m³/h, source line 48. -/
def Vp : ℚ := 36

/-- Total per-person volumetric flow Vd = p·Vp/3600 m³/s, source line 49. -/
def Vd : ℚ := p * Vp / 3600

/-- Thermal-bridge coefficient ψ = 0.091 W/(m K), source line 51. -/
def ψ : ℚ := 0.091

/-- Height h = 8 m, source line 53. -/
def h : ℚ := 8

/-- Length l = 3 m, source line 54. -/
def l : ℚ := 3

/-- Thermal-bridge length L = 2h + 2l, source line 55. -/
def L : ℚ := 2 * h + 2 * l

/-- Occupant sensible load Qi = 70·p W, source line 56. -/
def Qi : ℚ := 70 * p

/-- Air changes per hour ACH = 0.5, source line 58. -/
def ACH : ℚ := 0.5

/-- Moisture release per person mvp = 71e−3/3600 kg/s, source line 68. -/
def mvp : ℚ := 71e-3 / 3600

/-- Occupant latent load Qla = p·mvp·l, source line 69. -/
def Qla : ℚ := p * mvp * l

/-- Infiltration volumetric flow, source line 59 (`Vinf = ACH * V / 3600`),
with the air-change rate as a parameter so that monotonicity in ACH is
statable; the program evaluates it at `ACH`. -/
def Vinf (ach : ℚ) : ℚ := ach * V / 3600

/-- Infiltration mass flow, source line 60 (`minf = Vinf / psy.v(θo, wo)`),
with the specific volume `sv` abstract. -/
def minf (ach sv : ℚ) : ℚ := Vinf ach / sv

/-- Per-person ventilation mass flow, source line 63 (`mp = Vd / psy.v(θo, wo)`). -/
def mp (sv : ℚ) : ℚ := Vd / sv

/-- Sensible load, source line 64:
`Qs = Uw*Sw*(θo-θi) + minf*c*(θo-θi) + ψ*L*(θo-θi) + Qi`,
as a function of the infiltration mass flow it uses. -/
def Qs (mInf : ℚ) : ℚ :=
  Uw * Sw * (θo - θi) + mInf * c * (θo - θi) + ψ * L * (θo - θi) + Qi

/-- Latent load, source line 72: `Qlat = m * lat * (wo - ϕ) + Qla`, as a
function of the mass flow `m` assigned on line 71. -/
def Qlat (m wo ϕ : ℚ) : ℚ := m * lat * (wo - ϕ) + Qla

/-- Energy-balance supply-flow reestimate, source line 76:
`m = -Qs / (c * (θs - θi))`.  Named `m_raw` (the unclamped value) to keep the
three assignments to the Python variable `m` apart. -/
def m_raw (qs : ℚ) : ℚ := -qs / (c * (θs - θi))

/-- Supply absolute humidity, source line 77: `ws = ϕ - Qlat / (m * lat)`,
where `m` holds the line-76 value `m_raw qs`. -/
def ws (ϕ qlat qs : ℚ) : ℚ := ϕ - qlat / (m_raw qs * lat)

/-- The sensible load as a function of the temperature difference
`Δ = θo - θi`, generalising source line 64 in the one input the monotonicity
claim varies, the other inputs held at the program's values (`ACH`, and the
abstract specific volume `sv`). -/
def QsΔ (sv Δ : ℚ) : ℚ :=
  Uw * Sw * Δ + minf ACH sv * c * Δ + ψ * L * Δ + Qi

/-- All quantities the program derives after reading ϕ, in source order
(lines 59–84), as exact rationals; `wo` and `sv` abstract the psychrometric
outputs `psy.w(θo, ϕ, Z=0)` and `psy.v(θo, wo)`.  The fields record the
three distinct values of the Python variable `m`: `m_raw` is the line-76
energy-balance value, `m` the final (line 82–83 clamped) value. -/
structure Finals where
  Vinf : ℚ
  minf : ℚ
  mp : ℚ
  Qs : ℚ
  Qlat : ℚ
  m_raw : ℚ
  ws : ℚ
  m : ℚ
  deriving DecidableEq

/-- The derived quantities of a run, source lines 59–84, with total (field)
division; the division-guarded variant is `calculate_thermal_load`. -/
def compute (ϕ wo sv : ℚ) : Finals :=
  let vinf := Vinf ACH
  let mInf := minf ACH sv
  let mpv := mp sv
  let qs := Qs mInf
  let m1 := Vd / sv
  let qlat := Qlat m1 wo ϕ
  let m2 := m_raw qs
  let wsv := ws ϕ qlat qs
  let m3 := if m2 > mpv then mpv else m2
  ⟨vinf, mInf, mpv, qs, qlat, m2, wsv, m3⟩

/-- Error taxonomy of the run (spec §7): the humidity source is unreadable,
a psychrometric input is out of range, or a division has a zero divisor. -/
inductive Err where
  | DataUnavailable
  | DomainError
  | DivisionByZero
  deriving DecidableEq

/-- Python division: raises on a zero divisor, otherwise exact division. -/
def pdiv (a b : ℚ) : Except Err ℚ :=
  if b = 0 then .error .DivisionByZero else .ok (a / b)

/-- A spreadsheet cell: numeric, or anything non-numeric. -/
inductive Cell where
  | num (q : ℚ)
  | other
  deriving DecidableEq

/-- The external tabular humidity source: entries (row index, column label,
cell). -/
abbrev Table := List (ℕ × String × Cell)

/-- Cell lookup at a (row, column) address, `none` when the address is absent. -/
def cellAt (t : Table) (row : ℕ) (col : String) : Option Cell :=
  (t.find? (fun e => e.1 == row && e.2.1 == col)).map (fun e => e.2.2)

/-- Modelled from the spec: the humidity read of source lines 42–44
(`pd.read_excel` and `.at[4, 'I'] / 100`); the pandas library itself is not
part of this repository, so its failure behaviour follows spec §4 step 1: a
missing source, an absent row/column, or a non-numeric value fails with
`DataUnavailable`; a numeric cell at row index 4, column "I" is read as a
percentage and divided by 100. -/
def readPhi (src : Option Table) : Except Err ℚ :=
  match src with
  | none => .error .DataUnavailable
  | some t =>
    match cellAt t 4 "I" with
    | some (.num q) => .ok (q / 100)
    | some .other => .error .DataUnavailable
    | none => .error .DataUnavailable

/-- One printed line of the program, carrying the values it formats
(source lines 61, 65, 73, 79, 84). -/
inductive Out where
  | vinfLine (q : ℚ)
  | qsLine (q : ℚ)
  | qlatLine (q : ℚ)
  | mwsLine (m wsv : ℚ)
  | mLine (q : ℚ)
  deriving DecidableEq

/-- The whole run of `calculate_thermal_load` (source lines 31–84): read ϕ,
derive every quantity in source order with Python division semantics
(`pdiv`), and emit the print lines; on a raised error the pair holds the
lines already printed and the error.  `wfun`/`vfun` abstract the external
psychrometric functions `psy.w`/`psy.v`. -/
def calculate_thermal_load (wfun vfun : ℚ → ℚ → ℚ) (src : Option Table) :
    List Out × Except Err Finals :=
  match readPhi src with
  | .error e => ([], .error e)
  | .ok ϕ =>
    let wo := wfun θo ϕ
    let sv := vfun θo wo
    let vinf := Vinf ACH
    match pdiv (Vinf ACH) sv with
    | .error e => ([], .error e)
    | .ok mInf =>
      match pdiv Vd sv with
      | .error e => ([Out.vinfLine vinf], .error e)
      | .ok mpv =>
        let qs := Qs mInf
        match pdiv Vd sv with
        | .error e => ([Out.vinfLine vinf, Out.qsLine qs], .error e)
        | .ok m1 =>
          let qlat := Qlat m1 wo ϕ
          match pdiv (-qs) (c * (θs - θi)) with
          | .error e => ([Out.vinfLine vinf, Out.qsLine qs, Out.qlatLine qlat], .error e)
          | .ok m2 =>
            match pdiv qlat (m2 * lat) with
            | .error e => ([Out.vinfLine vinf, Out.qsLine qs, Out.qlatLine qlat], .error e)
            | .ok d =>
              let wsv := ϕ - d
              let m3 := if m2 > mpv then mpv else m2
              ([Out.vinfLine vinf, Out.qsLine qs, Out.qlatLine qlat,
                Out.mwsLine m2 wsv, Out.mLine m3],
               .ok ⟨vinf, mInf, mpv, qs, qlat, m2, wsv, m3⟩)

/-- The sequence of (variable name, value) assignments the function body
performs, in source order (lines 31–83), given ϕ and the psychrometric
outputs; the Python variable `m` is assigned on line 71, reassigned on
line 76, and conditionally reassigned on line 83. -/
def assignTrace (ϕ wo sv : ℚ) : List (String × ℚ) :=
  let vinf := Vinf ACH
  let mInf := minf ACH sv
  let mpv := mp sv
  let qs := Qs mInf
  let m1 := Vd / sv
  let qlat := Qlat m1 wo ϕ
  let m2 := m_raw qs
  let wsv := ws ϕ qlat qs
  [("c", c), ("lat", lat), ("theta_i", θi), ("theta_s", θs), ("V", V),
   ("Uw", Uw), ("Sw", Sw), ("theta_o", θo), ("phi", ϕ), ("wo", wo),
   ("p", p), ("Vp", Vp), ("Vd", Vd), ("psi", ψ), ("h", h), ("l", l),
   ("L", L), ("Qi", Qi), ("ACH", ACH), ("Vinf", vinf), ("minf", mInf),
   ("mp", mpv), ("Qs", qs), ("mvp", mvp), ("Qla", Qla), ("m", m1),
   ("Qlat", qlat), ("m", m2), ("ws", wsv)]
  ++ (if m2 > mpv then [("m", mpv)] else [])

/-! ### Projection lemmas for `compute` -/

lemma compute_Vinf (ϕ wo sv : ℚ) : (compute ϕ wo sv).Vinf = Vinf ACH := rfl

lemma compute_minf (ϕ wo sv : ℚ) : (compute ϕ wo sv).minf = minf ACH sv := rfl

lemma compute_mp (ϕ wo sv : ℚ) : (compute ϕ wo sv).mp = mp sv := rfl

lemma compute_Qs (ϕ wo sv : ℚ) : (compute ϕ wo sv).Qs = Qs (minf ACH sv) := rfl

lemma compute_Qlat (ϕ wo sv : ℚ) :
    (compute ϕ wo sv).Qlat = Qlat (Vd / sv) wo ϕ := rfl

lemma compute_m_raw (ϕ wo sv : ℚ) :
    (compute ϕ wo sv).m_raw = m_raw (Qs (minf ACH sv)) := rfl

lemma compute_ws (ϕ wo sv : ℚ) :
    (compute ϕ wo sv).ws = ws ϕ (Qlat (Vd / sv) wo ϕ) (Qs (minf ACH sv)) := rfl

lemma compute_m (ϕ wo sv : ℚ) :
    (compute ϕ wo sv).m =
      if m_raw (Qs (minf ACH sv)) > mp sv then mp sv
      else m_raw (Qs (minf ACH sv)) := rfl

/-! ### Claim theorems -/

/-- C1: for every unclamped supply flow `m_raw` produced in step 8 and every
per-person flow `mp`, the final reported supply mass flow is `mp` when
`m_raw > mp` and `m_raw` otherwise, i.e. it is `min m_raw mp`, the comparison
being exactly `m > mp` (source lines 82–84). -/
theorem ventilation_adequacy_clamp (ϕ wo sv : ℚ) :
    ((compute ϕ wo sv).m_raw > (compute ϕ wo sv).mp →
      (compute ϕ wo sv).m = (compute ϕ wo sv).mp) ∧
    (¬ (compute ϕ wo sv).m_raw > (compute ϕ wo sv).mp →
      (compute ϕ wo sv).m = (compute ϕ wo sv).m_raw) ∧
    (compute ϕ wo sv).m = min ((compute ϕ wo sv).m_raw) ((compute ϕ wo sv).mp) := by
  rw [compute_m, compute_m_raw, compute_mp]
  refine ⟨fun hgt => if_pos hgt, fun hle => if_neg hle, ?_⟩
  by_cases hgt : m_raw (Qs (minf ACH sv)) > mp sv
  · rw [if_pos hgt, min_eq_right hgt.le]
  · rw [if_neg hgt, min_eq_left (not_lt.mp hgt)]

/-- Witness for C1 at concrete inputs: at `sv = 1` the clamp fires
(`m_raw > mp`, the final flow equals `mp`); at `sv = -1/10` it does not
(the final flow equals `m_raw`). -/
theorem ventilation_adequacy_clamp_w :
    ((compute (2/5) (1/100) 1).m_raw > (compute (2/5) (1/100) 1).mp ∧
      (compute (2/5) (1/100) 1).m = (compute (2/5) (1/100) 1).mp) ∧
    (¬ (compute (2/5) (1/100) (-1/10)).m_raw > (compute (2/5) (1/100) (-1/10)).mp ∧
      (compute (2/5) (1/100) (-1/10)).m = (compute (2/5) (1/100) (-1/10)).m_raw) :=
  ⟨⟨by norm_num [compute, m_raw, mp, Qs, minf, Vinf, Qlat, ws, Vd, c, lat, θi, θs,
      V, Uw, Sw, θo, p, Vp, ψ, L, h, l, Qi, ACH, mvp, Qla],
    (ventilation_adequacy_clamp (2/5) (1/100) 1).1
      (by norm_num [compute, m_raw, mp, Qs, minf, Vinf, Qlat, ws, Vd, c, lat, θi,
        θs, V, Uw, Sw, θo, p, Vp, ψ, L, h, l, Qi, ACH, mvp, Qla])⟩,
   ⟨by norm_num [compute, m_raw, mp, Qs, minf, Vinf, Qlat, ws, Vd, c, lat, θi, θs,
      V, Uw, Sw, θo, p, Vp, ψ, L, h, l, Qi, ACH, mvp, Qla],
    (ventilation_adequacy_clamp (2/5) (1/100) (-1/10)).2.1
      (by norm_num [compute, m_raw, mp, Qs, minf, Vinf, Qlat, ws, Vd, c, lat, θi,
        θs, V, Uw, Sw, θo, p, Vp, ψ, L, h, l, Qi, ACH, mvp, Qla])⟩⟩

/-- C2: the step-8 reestimate satisfies `m = -Qs / (c * (θs - θi))`, the
supply absolute humidity satisfies `ws = ϕ - Qlat / (m * lat)` (source lines
76–77), and whenever `Qs < 0` the unclamped `m` is strictly positive. -/
theorem supply_reestimate_and_ws (ϕ wo sv : ℚ) :
    (compute ϕ wo sv).m_raw = -(compute ϕ wo sv).Qs / (c * (θs - θi)) ∧
    (compute ϕ wo sv).ws =
      ϕ - (compute ϕ wo sv).Qlat / ((compute ϕ wo sv).m_raw * lat) ∧
    ((compute ϕ wo sv).Qs < 0 → 0 < (compute ϕ wo sv).m_raw) := by
  refine ⟨rfl, rfl, fun hq => ?_⟩
  rw [compute_Qs] at hq
  rw [compute_m_raw]
  unfold m_raw
  exact div_pos (neg_pos.mpr hq) (by norm_num [c, θs, θi])

/-- Witness for C2: at `ϕ = 2/5`, `wo = 0`, `sv = 1` the sensible load is
negative and the unclamped supply flow is strictly positive. -/
theorem supply_reestimate_and_ws_w :
    (compute (2/5) 0 1).Qs < 0 ∧ 0 < (compute (2/5) 0 1).m_raw :=
  ⟨by norm_num [compute, m_raw, mp, Qs, minf, Vinf, Qlat, ws, Vd, c, lat, θi, θs,
      V, Uw, Sw, θo, p, Vp, ψ, L, h, l, Qi, ACH, mvp, Qla],
   (supply_reestimate_and_ws (2/5) 0 1).2.2
     (by norm_num [compute, m_raw, mp, Qs, minf, Vinf, Qlat, ws, Vd, c, lat, θi,
       θs, V, Uw, Sw, θo, p, Vp, ψ, L, h, l, Qi, ACH, mvp, Qla])⟩

/-- C3: the sensible load equals
`Uw*Sw*(θo-θi) + minf*c*(θo-θi) + ψ*L*(θo-θi) + Qi` with `L = 2h + 2l` and
`Qi = 70·p`, for every infiltration mass flow (source lines 53–64). -/
theorem sensible_load_formula :
    (∀ mInf : ℚ, Qs mInf =
      Uw * Sw * (θo - θi) + mInf * c * (θo - θi) +
        ψ * (2 * h + 2 * l) * (θo - θi) + 70 * p) ∧
    L = 2 * h + 2 * l ∧ Qi = 70 * p ∧
    (∀ ϕ wo sv : ℚ, (compute ϕ wo sv).Qs = Qs ((compute ϕ wo sv).minf)) :=
  ⟨fun _ => rfl, rfl, rfl, fun _ _ _ => rfl⟩

/-- C4: the latent load equals `m * lat * (wo - ϕ) + Qla` where the `m` used
is the line-71 value `Vd / sv` — identical to the per-person flow `mp` — and
`Qla = p * mvp * l` (source lines 63–72). -/
theorem latent_load_formula (ϕ wo sv : ℚ) :
    (compute ϕ wo sv).Qlat =
      (compute ϕ wo sv).mp * lat * (wo - ϕ) + p * mvp * l ∧
    (compute ϕ wo sv).mp = Vd / sv ∧
    mp sv = Vd / sv ∧ Qla = p * mvp * l :=
  ⟨rfl, rfl, rfl, rfl⟩

/-- C10: the supply temperature is hardcoded as `θs = θi + 15`, so the step-8
denominator `c * (θs - θi)` is the constant `15000`; the division computing
the unclamped supply flow therefore never raises, for every sensible load. -/
theorem supply_temperature_denominator :
    θs = θi + 15 ∧ c * (θs - θi) = 15000 ∧
    ∀ qs : ℚ, pdiv (-qs) (c * (θs - θi)) = .ok (m_raw qs) := by
  refine ⟨rfl, by norm_num [c, θs, θi], fun qs => ?_⟩
  unfold pdiv m_raw
  rw [if_neg (by norm_num [c, θs, θi] : ¬ c * (θs - θi) = (0:ℚ))]

/-! ### Monotonicity helpers -/

lemma Vinf_strictMono {a₁ a₂ : ℚ} (hlt : a₁ < a₂) : Vinf a₁ < Vinf a₂ := by
  have e : ∀ a : ℚ, Vinf a = a * (1/50) := fun a => by unfold Vinf V; ring
  rw [e, e]
  exact mul_lt_mul_of_pos_right hlt (by norm_num)

lemma minf_strictMono {sv a₁ a₂ : ℚ} (hsv : 0 < sv) (hlt : a₁ < a₂) :
    minf a₁ sv < minf a₂ sv := by
  unfold minf
  rw [div_eq_mul_inv, div_eq_mul_inv]
  exact mul_lt_mul_of_pos_right (Vinf_strictMono hlt) (inv_pos.mpr hsv)

lemma minf_pos {sv : ℚ} (hsv : 0 < sv) : 0 < minf ACH sv := by
  unfold minf
  exact div_pos (by norm_num [Vinf, ACH, V]) hsv

lemma QsΔ_strictMono {sv Δ₁ Δ₂ : ℚ} (hsv : 0 < sv) (hΔ : Δ₁ < Δ₂) :
    QsΔ sv Δ₁ < QsΔ sv Δ₂ := by
  have hm := minf_pos hsv
  unfold QsΔ
  have h1 : minf ACH sv * c * Δ₁ < minf ACH sv * c * Δ₂ :=
    mul_lt_mul_of_pos_left hΔ (mul_pos hm (by norm_num [c]))
  have h2 : Uw * Sw * Δ₁ < Uw * Sw * Δ₂ :=
    mul_lt_mul_of_pos_left hΔ (by norm_num [Uw, Sw])
  have h3 : ψ * L * Δ₁ < ψ * L * Δ₂ :=
    mul_lt_mul_of_pos_left hΔ (by norm_num [ψ, L, h, l])
  linarith

/-- C6 counterexample: as stated, the claim that a strictly larger
temperature-difference magnitude gives a strictly larger `|Qs|` is false: at
`sv = 1`, `|Δ| = 1` gives `|Qs| = 41.198` while `|Δ| = 2` gives
`|Qs| = 12.396`, because the occupant gain `Qi = 70` has the opposite sign. -/
theorem qs_magnitude_not_monotone :
    ¬ (∀ sv Δ₁ Δ₂ : ℚ, 0 < sv → |Δ₁| < |Δ₂| → |QsΔ sv Δ₁| < |QsΔ sv Δ₂|) := by
  intro hyp
  have h12 := hyp 1 (-1) (-2) (by norm_num)
    (by rw [abs_of_nonpos (by norm_num : (-1:ℚ) ≤ 0),
            abs_of_nonpos (by norm_num : (-2:ℚ) ≤ 0)]
        norm_num)
  have e1 : |QsΔ 1 (-1)| = 20599/500 := by
    rw [abs_of_nonneg
      (by norm_num [QsΔ, minf, Vinf, c, θi, θo, V, Uw, Sw, ψ, L, h, l, Qi, ACH, p] :
        (0:ℚ) ≤ QsΔ 1 (-1))]
    norm_num [QsΔ, minf, Vinf, c, θi, θo, V, Uw, Sw, ψ, L, h, l, Qi, ACH, p]
  have e2 : |QsΔ 1 (-2)| = 3099/250 := by
    rw [abs_of_nonneg
      (by norm_num [QsΔ, minf, Vinf, c, θi, θo, V, Uw, Sw, ψ, L, h, l, Qi, ACH, p] :
        (0:ℚ) ≤ QsΔ 1 (-2))]
    norm_num [QsΔ, minf, Vinf, c, θi, θo, V, Uw, Sw, ψ, L, h, l, Qi, ACH, p]
  rw [e1, e2] at h12
  norm_num at h12

/-- C6 amended: strictly increasing ACH strictly increases `Vinf` and (for
positive specific volume) `minf`; and in the heating regime the program
operates in — nonpositive temperature difference with nonpositive sensible
load — strictly increasing `|θo - θi|` strictly increases `|Qs|`. -/
theorem ach_and_qs_monotonicity :
    (∀ a₁ a₂ : ℚ, a₁ < a₂ → Vinf a₁ < Vinf a₂) ∧
    (∀ sv a₁ a₂ : ℚ, 0 < sv → a₁ < a₂ → minf a₁ sv < minf a₂ sv) ∧
    (∀ sv Δ₁ Δ₂ : ℚ, 0 < sv → Δ₁ ≤ 0 → Δ₂ ≤ 0 → |Δ₂| < |Δ₁| →
      QsΔ sv Δ₂ ≤ 0 → |QsΔ sv Δ₂| < |QsΔ sv Δ₁|) := by
  refine ⟨fun a₁ a₂ hlt => Vinf_strictMono hlt,
    fun sv a₁ a₂ hsv hlt => minf_strictMono hsv hlt,
    fun sv Δ₁ Δ₂ hsv hn1 hn2 habs hq2 => ?_⟩
  rw [abs_of_nonpos hn1, abs_of_nonpos hn2] at habs
  have hΔ : Δ₁ < Δ₂ := by linarith
  have hq1 : QsΔ sv Δ₁ < QsΔ sv Δ₂ := QsΔ_strictMono hsv hΔ
  rw [abs_of_nonpos hq2, abs_of_nonpos (le_of_lt (lt_of_lt_of_le hq1 hq2))]
  linarith

/-- Witness for the amended C6 at concrete inputs: ACH `1/2 < 1`, and the
operating temperature difference `θo - θi = -30.3` against `-31`. -/
theorem ach_and_qs_monotonicity_w :
    Vinf (1/2) < Vinf 1 ∧ minf (1/2) 1 < minf 1 1 ∧
    |QsΔ 1 (-303/10)| < |QsΔ 1 (-31)| :=
  ⟨ach_and_qs_monotonicity.1 (1/2) 1 (by norm_num),
   ach_and_qs_monotonicity.2.1 1 (1/2) 1 (by norm_num) (by norm_num),
   ach_and_qs_monotonicity.2.2 1 (-31) (-303/10) (by norm_num)
     (by norm_num) (by norm_num)
     (by rw [abs_of_nonpos (by norm_num : (-303/10:ℚ) ≤ 0),
             abs_of_nonpos (by norm_num : (-31:ℚ) ≤ 0)]
         norm_num)
     (by norm_num [QsΔ, minf, Vinf, c, θi, θo, V, Uw, Sw, ψ, L, h, l, Qi, ACH, p])⟩

/-- C5 counterexample: the claim that each named quantity is computed exactly
once fails at concrete inputs `ϕ = 2/5`, `wo = 0`, `sv = 1`: the variable `m`
is assigned three times during the run (lines 71, 76 and 83). -/
theorem single_assignment_violated :
    ¬ (∀ (ϕ wo sv : ℚ) (name : String),
        ((assignTrace ϕ wo sv).filter (fun e => e.1 == name)).length ≤ 1) := by
  intro hyp
  have hm := hyp (2/5) 0 1 "m"
  have hif : m_raw (Qs (minf ACH 1)) > mp 1 := by
    norm_num [m_raw, mp, Qs, minf, Vinf, Vd, c, lat, θi, θs, V, Uw, Sw, θo,
      p, Vp, ψ, L, h, l, Qi, ACH]
  simp only [assignTrace] at hm
  rw [if_pos hif] at hm
  exact absurd hm (by decide)

/-- C5 amended: every derived quantity is a deterministic function of the
constants, ϕ and the psychrometric outputs, and every named quantity other
than `m` is assigned exactly once per run; but `m` is reassigned: it holds
the line-71 value `Vd / sv`, then the line-76 value `m_raw Qs`, and, when the
clamp fires, finally `mp`. -/
theorem assignments_once_except_m (ϕ wo sv : ℚ) :
    ((assignTrace ϕ wo sv).map Prod.fst).filter (fun k => !(k == "m")) =
      ["c", "lat", "theta_i", "theta_s", "V", "Uw", "Sw", "theta_o", "phi",
       "wo", "p", "Vp", "Vd", "psi", "h", "l", "L", "Qi", "ACH", "Vinf",
       "minf", "mp", "Qs", "mvp", "Qla", "Qlat", "ws"] ∧
    ((assignTrace ϕ wo sv).filter (fun e => e.1 == "m")).map Prod.snd =
      [Vd / sv, m_raw (Qs (minf ACH sv))] ++
      (if m_raw (Qs (minf ACH sv)) > mp sv then [mp sv] else []) := by
  constructor <;> simp only [assignTrace] <;> split_ifs <;> rfl

/-- C7: ϕ is loaded from row index 4 of column "I" of the external tabular
source and divided by 100; a missing source, an absent row/column, or a
non-numeric cell fails with `DataUnavailable`, and in the missing-file case
the run emits no output at all (the read precedes every print). -/
theorem humidity_read (wfun vfun : ℚ → ℚ → ℚ) :
    calculate_thermal_load wfun vfun none = ([], .error .DataUnavailable) ∧
    (∀ (t : Table) (q : ℚ), cellAt t 4 "I" = some (Cell.num q) →
        readPhi (some t) = .ok (q / 100)) ∧
    (∀ t : Table, cellAt t 4 "I" = none →
        readPhi (some t) = .error .DataUnavailable) ∧
    (∀ t : Table, cellAt t 4 "I" = some Cell.other →
        readPhi (some t) = .error .DataUnavailable) := by
  refine ⟨rfl, fun t q hq => ?_, fun t hn => ?_, fun t ho => ?_⟩
  · simp only [readPhi, hq]
  · simp only [readPhi, hn]
  · simp only [readPhi, ho]

/-- Witness for C7 at concrete tables: a table holding 40 at (4, "I") reads
as `ϕ = 40/100`; an empty table and a non-numeric cell fail. -/
theorem humidity_read_w :
    cellAt [(4, "I", Cell.num 40)] 4 "I" = some (Cell.num 40) ∧
    readPhi (some [(4, "I", Cell.num 40)]) = .ok (40 / 100) ∧
    readPhi (some ([] : Table)) = .error .DataUnavailable ∧
    readPhi (some [(4, "I", Cell.other)]) = .error .DataUnavailable :=
  ⟨rfl, (humidity_read (fun _ _ => 0) (fun _ _ => 0)).2.1 _ 40 rfl,
   (humidity_read (fun _ _ => 0) (fun _ _ => 0)).2.2.1 _ rfl,
   (humidity_read (fun _ _ => 0) (fun _ _ => 0)).2.2.2 _ rfl⟩

/-- C8: when the sensible load is exactly zero, the step-8 reestimate
resolves to `m = 0` and the step-9 computation of `ws` divides by
`m * lat = 0`: the run aborts with `DivisionByZero`, having printed only the
`Vinf`, `Qs` and `Qlat` lines — no final `m`/`ws` result. -/
theorem qs_zero_division_aborts (wfun vfun : ℚ → ℚ → ℚ) (src : Option Table)
    (ϕ : ℚ) (hϕ : readPhi src = .ok ϕ)
    (hsv : vfun θo (wfun θo ϕ) ≠ 0)
    (hqs : Qs (minf ACH (vfun θo (wfun θo ϕ))) = 0) :
    m_raw 0 = 0 ∧
    (calculate_thermal_load wfun vfun src).2 = .error .DivisionByZero ∧
    (calculate_thermal_load wfun vfun src).1 =
      [Out.vinfLine (Vinf ACH), Out.qsLine 0,
       Out.qlatLine (Qlat (Vd / vfun θo (wfun θo ϕ)) (wfun θo ϕ) ϕ)] := by
  have hden : c * (θs - θi) ≠ 0 := by norm_num [c, θs, θi]
  have hrun : calculate_thermal_load wfun vfun src =
      ([Out.vinfLine (Vinf ACH), Out.qsLine 0,
        Out.qlatLine (Qlat (Vd / vfun θo (wfun θo ϕ)) (wfun θo ϕ) ϕ)],
       .error .DivisionByZero) := by
    unfold minf at hqs
    unfold calculate_thermal_load
    rw [hϕ]
    simp only [pdiv, if_neg hsv, hqs, if_neg hden, neg_zero, zero_div, zero_mul,
      if_pos rfl, if_true]
  exact ⟨by unfold m_raw; rw [neg_zero, zero_div], by rw [hrun], by rw [hrun]⟩

/-- Witness for C8: with a constant specific volume `-1515000/2498503` the
sensible load vanishes exactly, and the run aborts with `DivisionByZero`. -/
theorem qs_zero_division_aborts_w :
    Qs (minf ACH (-1515000/2498503)) = 0 ∧
    (calculate_thermal_load (fun _ _ => 0)
      (fun _ _ => (-1515000/2498503 : ℚ)) (some [(4, "I", Cell.num 40)])).2 =
      .error .DivisionByZero :=
  ⟨by norm_num [Qs, minf, Vinf, c, θi, θo, V, Uw, Sw, ψ, L, h, l, Qi, ACH, p],
   (qs_zero_division_aborts (fun _ _ => 0) (fun _ _ => (-1515000/2498503 : ℚ))
     (some [(4, "I", Cell.num 40)]) (40/100) rfl (by norm_num)
     (by norm_num [Qs, minf, Vinf, c, θi, θo, V, Uw, Sw, ψ, L, h, l, Qi,
       ACH, p])).2.1⟩

/-- C9: `ws` is computed from the unclamped step-8 flow, before the clamp;
the clamp leaves `ws` unchanged, so when it fires (and no accidental
coincidence of flows or a vanishing latent load occurs) the reported `ws`
does not correspond to the finally reported `m`. -/
theorem ws_uses_unclamped_m (ϕ wo sv : ℚ) :
    (compute ϕ wo sv).ws =
      ϕ - (compute ϕ wo sv).Qlat / ((compute ϕ wo sv).m_raw * lat) ∧
    ((compute ϕ wo sv).m_raw > (compute ϕ wo sv).mp →
      (compute ϕ wo sv).m = (compute ϕ wo sv).mp ∧
      (compute ϕ wo sv).ws =
        ϕ - (compute ϕ wo sv).Qlat / ((compute ϕ wo sv).m_raw * lat)) ∧
    ((compute ϕ wo sv).m_raw > (compute ϕ wo sv).mp →
      (compute ϕ wo sv).m_raw ≠ 0 → (compute ϕ wo sv).mp ≠ 0 →
      (compute ϕ wo sv).Qlat ≠ 0 →
      (compute ϕ wo sv).ws ≠
        ϕ - (compute ϕ wo sv).Qlat / ((compute ϕ wo sv).m * lat)) := by
  refine ⟨rfl, fun hgt => ⟨?_, rfl⟩, fun hgt hm0 hp0 hq0 heq => ?_⟩
  · rw [compute_m]
    exact if_pos hgt
  · rw [compute_m_raw, compute_mp] at hgt
    rw [compute_m, if_pos hgt] at heq
    rw [compute_ws, compute_Qlat] at heq
    rw [compute_m_raw] at hm0
    rw [compute_mp] at hp0
    rw [compute_Qlat] at hq0
    unfold ws at heq
    have hdiv : Qlat (Vd / sv) wo ϕ / (m_raw (Qs (minf ACH sv)) * lat) =
        Qlat (Vd / sv) wo ϕ / (mp sv * lat) := by linarith
    have hlat : (lat:ℚ) ≠ 0 := by norm_num [lat]
    have hA : m_raw (Qs (minf ACH sv)) * lat ≠ 0 := mul_ne_zero hm0 hlat
    have hB : mp sv * lat ≠ 0 := mul_ne_zero hp0 hlat
    rw [div_eq_div_iff hA hB] at hdiv
    have h1 := mul_left_cancel₀ hq0 hdiv
    have h2 := mul_right_cancel₀ hlat h1.symm
    exact absurd h2.symm (ne_of_lt hgt)

/-- Witness for C9: at `ϕ = 2/5`, `wo = 0`, `sv = 1` the clamp fires and the
reported `ws` differs from the value the final `m` would give. -/
theorem ws_uses_unclamped_m_w :
    (compute (2/5) 0 1).m_raw > (compute (2/5) 0 1).mp ∧
    (compute (2/5) 0 1).ws ≠
      2/5 - (compute (2/5) 0 1).Qlat / ((compute (2/5) 0 1).m * lat) := by
  have hgt : (compute (2/5) 0 1).m_raw > (compute (2/5) 0 1).mp := by
    norm_num [compute, m_raw, mp, Qs, minf, Vinf, Qlat, ws, Vd, c, lat, θi, θs,
      V, Uw, Sw, θo, p, Vp, ψ, L, h, l, Qi, ACH, mvp, Qla]
  refine ⟨hgt, (ws_uses_unclamped_m (2/5) 0 1).2.2 hgt ?_ ?_ ?_⟩ <;>
    norm_num [compute, m_raw, mp, Qs, minf, Vinf, Qlat, ws, Vd, c, lat, θi, θs,
      V, Uw, Sw, θo, p, Vp, ψ, L, h, l, Qi, ACH, mvp, Qla]

end EVA
